import Mathlib

/-!
Verification of the core logic of the Student Grading System repository
(`app.py`, `final_app.py`, `Application.py`): the grade evaluator, the
input validators, the add-student submit handlers, the startup CSV load
and the clear-all handler, shallowly embedded over exact rationals.
-/

set_option maxRecDepth 4000

namespace Grading

/-- Embeds `compute_grade` (`app.py` lines 8-19, identical in
`final_app.py` lines 12-22 and `Application.py` lines 8-19): the
if/elif/else chain mapping an average to a letter grade. Python float
comparisons on finite values coincide with the rational order, so the
argument is modelled as a rational. -/
def compute_grade (avg : ℚ) : String :=
  if avg ≥ 80 then "A"
  else if avg ≥ 70 then "B"
  else if avg ≥ 60 then "C"
  else if avg ≥ 50 then "D"
  else "F"

/-- Result of Python `float(...)`: a finite value, `nan`, or a signed
infinity. -/
inductive PyFloat where
  | finite (q : ℚ)
  | nan
  | inf
  | ninf
deriving DecidableEq, Repr

/-- Numeric value of a list of decimal digit characters. -/
def digitsVal (cs : List Char) : ℕ :=
  cs.foldl (fun a c => a * 10 + (c.toNat - 48)) 0

/-- Models the Python builtin `float(str)` as called by `validate_score`
and the submit handlers: optional surrounding spaces, an optional sign,
then either `nan`, `inf`/`infinity`, or a decimal literal
`digits`, `digits.digits`, `digits.` or `.digits`; anything else fails to
parse (`none`), which the callers observe as a raised exception. -/
def pyFloatOfChars (cs : List Char) : Option PyFloat :=
  let cs := (cs.dropWhile (· = ' ')).reverse.dropWhile (· = ' ') |>.reverse
  let (neg, rest) :=
    match cs with
    | '+' :: t => (false, t)
    | '-' :: t => (true, t)
    | t => (false, t)
  if rest = "nan".toList then some .nan
  else if rest = "inf".toList ∨ rest = "infinity".toList then
    some (if neg then .ninf else .inf)
  else
    let intPart := rest.takeWhile Char.isDigit
    let tail := rest.dropWhile Char.isDigit
    let sgn : ℚ := if neg then -1 else 1
    match tail with
    | [] =>
        if intPart = [] then none
        else some (.finite (sgn * digitsVal intPart))
    | '.' :: frac =>
        if frac.all Char.isDigit ∧ (intPart ≠ [] ∨ frac ≠ []) then
          some (.finite (sgn * ((digitsVal intPart : ℚ) +
            (digitsVal frac : ℚ) / 10 ^ frac.length)))
        else none
    | _ => none

/-- Parse a string as Python `float(...)` does. -/
def pyFloat (s : String) : Option PyFloat :=
  pyFloatOfChars s.toList

/-- Python `<=` on floats: `nan` compares false against everything,
infinities compare at the extremes, finite values by rational order. -/
def pyLe : PyFloat → PyFloat → Bool
  | .nan, _ => false
  | _, .nan => false
  | .ninf, _ => true
  | _, .ninf => false
  | _, .inf => true
  | .inf, _ => false
  | .finite a, .finite b => decide (a ≤ b)

/-- Embeds `validate_score` (`app.py` lines 24-29, identical in
`final_app.py` and `Application.py`): try `float(score)` — a parse
failure is caught and yields `False`; otherwise the chained comparison
`0 <= s <= 100`, which is `0 <= s and s <= 100`. -/
def validate_score (score : String) : Bool :=
  match pyFloat score with
  | none => false
  | some s => pyLe (.finite 0) s && pyLe s (.finite 100)

/-- Python whitespace characters stripped by `str.strip()`. -/
def pyIsSpace (c : Char) : Bool :=
  c = ' ' ∨ c = '\t' ∨ c = '\n' ∨ c = '\r' ∨ c = '\x0b' ∨ c = '\x0c'

/-- Models Python `str.strip()`: drop whitespace from both ends. -/
def pyStrip (s : String) : String :=
  ⟨(s.toList.dropWhile pyIsSpace).reverse.dropWhile pyIsSpace |>.reverse⟩

/-- Embeds `validate_name` (`app.py` lines 21-22): `bool(name and
name.strip())`, i.e. the name is non-empty and stays non-empty after
stripping whitespace. -/
def validate_name (name : String) : Bool :=
  name ≠ "" && pyStrip name ≠ ""

/-- The rounding of Python's builtin `round(x, 2)` on exact values:
round half to even at the second decimal place. -/
def roundHalfEven (q : ℚ) : ℤ :=
  let f := ⌊q⌋
  let r := q - f
  if r < 1 / 2 then f
  else if r > 1 / 2 then f + 1
  else if 2 ∣ f then f else f + 1

/-- Models `round(avg, 2)` as used when caching the average on a
record. -/
def round2 (q : ℚ) : ℚ :=
  (roundHalfEven (q * 100) : ℚ) / 100

/-- A cell of a student-record dict: Python stores either a number or a
raw string there (`app.py` stores parsed floats for the subject fields,
`final_app.py` stores the submitted text). -/
inductive Value where
  | num (q : ℚ)
  | str (s : String)
deriving DecidableEq, Repr

/-- A student record as built by the submit handlers: the dict
`{"Name": …, "Subject i": …, "Average": …, "Grade": …}` with the subject
cells kept in subject order. -/
structure StudentRecord where
  name : String
  scores : List Value
  average : ℚ
  grade : String
deriving DecidableEq, Repr

/-- The value of `float(s)` on the handlers' success path: by then
`validate_score s` has already returned `True`, so the parse yields a
finite value; the fallback `0` is unreachable there. -/
def floatVal (s : String) : ℚ :=
  match pyFloat s with
  | some (.finite q) => q
  | _ => 0

/-- Outcome of one submit-handler run: the validation messages shown via
`st.error` (in display order), the session roster afterwards, and the
persisted CSV file afterwards (`none` = no file on disk, `some r` = a
file holding exactly the rows of roster `r`). -/
structure SubmitResult where
  errors : List String
  roster : List StudentRecord
  file : Option (List StudentRecord)
deriving DecidableEq, Repr

/-- Embeds the add-student submit handler of `app.py` lines 63-94
(`Application.py` lines 58-88 is the same without the CSV write): collect
one error message per failing field, checking the name and all three
scores; on any error show the messages and stop; otherwise parse the
scores, average them, grade the average, append the record and rewrite
the CSV file with the whole roster. -/
def app_submit (roster : List StudentRecord) (file : Option (List StudentRecord))
    (name m1 m2 m3 : String) : SubmitResult :=
  let errors :=
    (if !validate_name name then ["Name cannot be empty."] else []) ++
    (if !validate_score m1 then ["Subject 1 must be between 0 and 100."] else []) ++
    (if !validate_score m2 then ["Subject 2 must be between 0 and 100."] else []) ++
    (if !validate_score m3 then ["Subject 3 must be between 0 and 100."] else [])
  if errors ≠ [] then
    { errors := errors, roster := roster, file := file }
  else
    let scores := [floatVal m1, floatVal m2, floatVal m3]
    let avg := scores.sum / (scores.length : ℚ)
    let grade := compute_grade avg
    let student : StudentRecord :=
      { name := pyStrip name
        scores := scores.map Value.num
        average := round2 avg
        grade := grade }
    let roster2 := roster ++ [student]
    { errors := [], roster := roster2, file := some roster2 }

/-- One step of the `for subj, val in marks.items()` loop of
`final_app.py` lines 132-137: an invalid score clears the `valid` flag
and emits that subject's error; a valid one appends its parsed value to
`scores`. The accumulator is `(valid, scores, errors so far)`. -/
def finalLoopStep (acc : Bool × List ℚ × List String) (m : String × String) :
    Bool × List ℚ × List String :=
  if !validate_score m.2 then
    (false, acc.2.1, acc.2.2 ++ [m.1 ++ " must be between 0 and 100."])
  else
    (acc.1, acc.2.1 ++ [floatVal m.2], acc.2.2)

/-- Embeds the add-student submit handler of `final_app.py` lines
126-149: an empty (stripped) name reports only "Name cannot be empty."
and checks nothing else; otherwise each subject's mark is validated in
subject order, and when all are valid the record is appended — its
subject cells hold the raw submitted strings `marks[subj]`, not the
parsed numbers — and the CSV file is rewritten with the whole roster.
`marks` lists `(subject name, submitted text)` in subject order, as the
insertion-ordered dict of the source does. -/
def final_submit (roster : List StudentRecord) (file : Option (List StudentRecord))
    (name : String) (marks : List (String × String)) : SubmitResult :=
  if pyStrip name = "" then
    { errors := ["Name cannot be empty."], roster := roster, file := file }
  else
    let acc := marks.foldl finalLoopStep (true, [], [])
    let valid := acc.1
    let scores := acc.2.1
    let errors := acc.2.2
    if valid then
      let avg := scores.sum / (scores.length : ℚ)
      let grade := compute_grade avg
      let student : StudentRecord :=
        { name := pyStrip name
          scores := marks.map (fun m => Value.str m.2)
          average := round2 avg
          grade := grade }
      let roster2 := roster ++ [student]
      { errors := [], roster := roster2, file := some roster2 }
    else
      { errors := errors, roster := roster, file := file }

/-- Session state the roster-store handlers act on: the in-memory roster
and the persisted CSV file (`none` = absent). -/
structure AppState where
  roster : List StudentRecord
  file : Option (List StudentRecord)
deriving DecidableEq, Repr

/-- Embeds the clear-all handler (`app.py` lines 117-120, `final_app.py`
lines 193-196): set the session roster to the empty list and, if the CSV
file exists, remove it; when no file exists the existence check skips
the removal and nothing is raised. -/
def clear_all (s : AppState) : AppState :=
  { roster := []
    file := match s.file with
      | some _ => none
      | none => s.file }

/-- A row of the parsed CSV as `DataFrame.to_dict(orient="records")`
returns it: column name paired with the cell text. -/
def CsvRecord := List (String × String)
deriving instance DecidableEq for CsvRecord

/-- Models `pandas.read_csv` on the file's lines, the two failure modes
the embedding needs: an empty file raises `EmptyDataError`, and a data
row with more fields than the header raises `ParserError`; otherwise the
first line is the header and each remaining line becomes one record of
header-column/cell pairs. -/
def pd_read_csv (lines : List String) : Except String (List CsvRecord) :=
  match lines with
  | [] => .error "EmptyDataError: No columns to parse from file"
  | header :: rows =>
    let cols := header.splitOn ","
    if rows.all (fun r => (r.splitOn ",").length ≤ cols.length) then
      .ok (rows.map (fun r => cols.zip (r.splitOn ",")))
    else
      .error "ParserError: Error tokenizing data"

/-- Embeds the startup load of `app.py` lines 34-40 (`final_app.py`
lines 82-87 is identical): if the CSV file exists it is parsed — with no
try/except, so a parse failure propagates out of the handler — and its
records become the session roster; if no file exists the prior session
roster is kept, or the empty roster is installed when the session is
fresh. `file` is the on-disk file content (`none` = absent), `prior` the
pre-existing session roster, if any. -/
def startup_load (file : Option (List String)) (prior : Option (List CsvRecord)) :
    Except String (List CsvRecord) :=
  match file with
  | some lines =>
    match pd_read_csv lines with
    | .ok records => .ok records
    | .error e => .error e
  | none =>
    match prior with
    | some r => .ok r
    | none => .ok []

/-- The record `app_submit` appends on its success path, written out:
stripped name, the three parsed scores as numeric cells in subject
order, the rounded average, and the grade of the unrounded average. -/
def appRecord (name m1 m2 m3 : String) : StudentRecord :=
  { name := pyStrip name
    scores := [.num (floatVal m1), .num (floatVal m2), .num (floatVal m3)]
    average := round2 ((floatVal m1 + floatVal m2 + floatVal m3) / 3)
    grade := compute_grade ((floatVal m1 + floatVal m2 + floatVal m3) / 3) }

/-- The record `final_submit` appends on its success path, written out:
stripped name, the raw submitted strings as subject cells in subject
order, the rounded average of the parsed scores, and the grade of the
unrounded average. -/
def finalRecord (name : String) (marks : List (String × String)) : StudentRecord :=
  let qs := marks.map (fun m => floatVal m.2)
  { name := pyStrip name
    scores := marks.map (fun m => Value.str m.2)
    average := round2 (qs.sum / (qs.length : ℚ))
    grade := compute_grade (qs.sum / (qs.length : ℚ)) }

/-- The score validator accepts exactly the strings that parse to a
finite value in the closed interval from 0 to 100. -/
theorem validate_score_iff (s : String) :
    validate_score s = true ↔
      ∃ q : ℚ, pyFloat s = some (PyFloat.finite q) ∧ 0 ≤ q ∧ q ≤ 100 := by
  unfold validate_score
  cases h : pyFloat s with
  | none => simp
  | some f => cases f <;> simp [pyLe]

/-- A validated score parses to a value between 0 and 100. -/
theorem floatVal_bounds (s : String) (h : validate_score s = true) :
    0 ≤ floatVal s ∧ floatVal s ≤ 100 := by
  obtain ⟨q, hq, h0, h1⟩ := (validate_score_iff s).mp h
  have hv : floatVal s = q := by simp [floatVal, hq]
  rw [hv]
  exact ⟨h0, h1⟩

/-- The error list built by the `app.py` submit handler, in display
order: one message per failing field, all four fields checked. -/
theorem app_submit_errors_eq (roster : List StudentRecord)
    (file : Option (List StudentRecord)) (name m1 m2 m3 : String) :
    (app_submit roster file name m1 m2 m3).errors =
      (if !validate_name name then ["Name cannot be empty."] else []) ++
      (if !validate_score m1 then ["Subject 1 must be between 0 and 100."] else []) ++
      (if !validate_score m2 then ["Subject 2 must be between 0 and 100."] else []) ++
      (if !validate_score m3 then ["Subject 3 must be between 0 and 100."] else []) := by
  by_cases hn : validate_name name = true <;>
  by_cases hm1 : validate_score m1 = true <;>
  by_cases hm2 : validate_score m2 = true <;>
  by_cases hm3 : validate_score m3 = true <;>
  simp_all [app_submit]

/-- On all-valid input the `app.py` submit handler appends exactly
`appRecord` and rewrites the file with the new roster. -/
theorem app_submit_valid (roster : List StudentRecord)
    (file : Option (List StudentRecord)) (name m1 m2 m3 : String)
    (hn : validate_name name = true) (h1 : validate_score m1 = true)
    (h2 : validate_score m2 = true) (h3 : validate_score m3 = true) :
    app_submit roster file name m1 m2 m3 =
      { errors := []
        roster := roster ++ [appRecord name m1 m2 m3]
        file := some (roster ++ [appRecord name m1 m2 m3]) } := by
  simp [app_submit, hn, h1, h2, h3, appRecord, ← add_assoc]

/-- When the `app.py` submit handler reports any error it leaves the
roster and the file untouched. -/
theorem app_submit_invalid (roster : List StudentRecord)
    (file : Option (List StudentRecord)) (name m1 m2 m3 : String)
    (h : (app_submit roster file name m1 m2 m3).errors ≠ []) :
    (app_submit roster file name m1 m2 m3).roster = roster ∧
    (app_submit roster file name m1 m2 m3).file = file := by
  by_cases hn : validate_name name = true <;>
  by_cases hm1 : validate_score m1 = true <;>
  by_cases hm2 : validate_score m2 = true <;>
  by_cases hm3 : validate_score m3 = true <;>
  simp_all [app_submit]

/-- Closed form of the `final_app.py` validation loop: the flag records
whether every mark validates, the scores accumulate the parsed valid
marks, the errors accumulate one message per failing mark, in order. -/
theorem finalLoop_foldl (marks : List (String × String))
    (acc : Bool × List ℚ × List String) :
    marks.foldl finalLoopStep acc =
      (acc.1 && marks.all (fun m => validate_score m.2),
       acc.2.1 ++ (marks.filter (fun m => validate_score m.2)).map (fun m => floatVal m.2),
       acc.2.2 ++ (marks.filter (fun m => !validate_score m.2)).map
         (fun m => m.1 ++ " must be between 0 and 100.")) := by
  induction marks generalizing acc with
  | nil => simp
  | cons m t ih =>
    simp only [List.foldl_cons, ih, finalLoopStep]
    by_cases h : validate_score m.2 = true <;>
      simp [h, List.append_assoc, Bool.and_assoc]

/-- With an empty stripped name the `final_app.py` submit handler stops
at the single name error, checking nothing else. -/
theorem final_submit_name_empty (roster : List StudentRecord)
    (file : Option (List StudentRecord)) (name : String)
    (marks : List (String × String)) (h : pyStrip name = "") :
    final_submit roster file name marks =
      { errors := ["Name cannot be empty."], roster := roster, file := file } := by
  simp [final_submit, h]

/-- With a non-empty stripped name the `final_app.py` submit handler
either appends `finalRecord` (all marks valid) or reports one message
per failing mark and leaves the state untouched. -/
theorem final_submit_name_valid (roster : List StudentRecord)
    (file : Option (List StudentRecord)) (name : String)
    (marks : List (String × String)) (h : pyStrip name ≠ "") :
    final_submit roster file name marks =
      if marks.all (fun m => validate_score m.2) then
        { errors := []
          roster := roster ++ [finalRecord name marks]
          file := some (roster ++ [finalRecord name marks]) }
      else
        { errors := (marks.filter (fun m => !validate_score m.2)).map
            (fun m => m.1 ++ " must be between 0 and 100.")
          roster := roster, file := file } := by
  simp only [final_submit, if_neg h, finalLoop_foldl, Bool.true_and, List.nil_append]
  by_cases hv : marks.all (fun m => validate_score m.2)
  · have hf : marks.filter (fun m => validate_score m.2) = marks := by
      rw [List.filter_eq_self]
      intro a ha
      exact (List.all_eq_true.mp hv) a ha
    simp [hv, hf, finalRecord]
  · simp [hv]

end Grading

namespace Grading

/-- Claim C1: for every real input, the evaluator returns exactly one of
the five grades by half-open bands with boundaries in the higher band:
A iff the average is at least 80, B iff in [70, 80), C iff in [60, 70),
D iff in [50, 60), F iff below 50; in particular 80 grades A, 79.999
grades B, 50 grades D and 49.999 grades F. -/
theorem c1_compute_grade_bands :
    (∀ a : ℚ,
      (compute_grade a = "A" ↔ 80 ≤ a) ∧
      (compute_grade a = "B" ↔ 70 ≤ a ∧ a < 80) ∧
      (compute_grade a = "C" ↔ 60 ≤ a ∧ a < 70) ∧
      (compute_grade a = "D" ↔ 50 ≤ a ∧ a < 60) ∧
      (compute_grade a = "F" ↔ a < 50)) ∧
    compute_grade 80 = "A" ∧ compute_grade (79999 / 1000) = "B" ∧
    compute_grade 50 = "D" ∧ compute_grade (49999 / 1000) = "F" := by
  refine ⟨fun a => ?_, ?_, ?_, ?_, ?_⟩
  · unfold compute_grade
    split_ifs with h1 h2 h3 h4 <;>
      refine ⟨?_, ?_, ?_, ?_, ?_⟩ <;> simp_all +decide <;> intros <;> linarith
  all_goals unfold compute_grade
  all_goals norm_num

/-- Claim C10: the grade evaluator is total with no range check of its
own — every input is graded, anything at or above 80 (including values
above 100) yields A, and anything below 50 (including negative values)
yields F; out-of-range averages are never rejected. -/
theorem c10_compute_grade_total :
    (∀ a : ℚ, compute_grade a = "A" ∨ compute_grade a = "B" ∨ compute_grade a = "C" ∨
      compute_grade a = "D" ∨ compute_grade a = "F") ∧
    (∀ a : ℚ, 80 ≤ a → compute_grade a = "A") ∧
    (∀ a : ℚ, a < 50 → compute_grade a = "F") ∧
    compute_grade 150 = "A" ∧ compute_grade (-10) = "F" := by
  refine ⟨fun a => ?_, fun a h => ?_, fun a h => ?_, ?_, ?_⟩
  · unfold compute_grade
    split_ifs <;> simp
  · unfold compute_grade
    rw [if_pos h]
  · unfold compute_grade
    split_ifs <;> first | rfl | linarith
  · unfold compute_grade
    norm_num
  · unfold compute_grade
    norm_num

/-- Witness for C10 at the concrete out-of-range inputs 150 and -10. -/
theorem c10_compute_grade_total_witness :
    80 ≤ (150 : ℚ) ∧ compute_grade 150 = "A" ∧
    (-10 : ℚ) < 50 ∧ compute_grade (-10) = "F" :=
  ⟨by norm_num, c10_compute_grade_total.2.1 150 (by norm_num),
   by norm_num, c10_compute_grade_total.2.2.1 (-10) (by norm_num)⟩

/-- Claim C4: the score validator is a total function (it is a Lean
function, so no exception can escape) returning true exactly when the
input parses as a finite real in the closed interval [0, 100]; it
rejects non-numeric text, the empty string, negatives, values above
100, nan and the infinities, and accepts 0, 100 and decimals between. -/
theorem c4_validate_score_spec :
    (∀ s : String, validate_score s = true ↔
      ∃ q : ℚ, pyFloat s = some (PyFloat.finite q) ∧ 0 ≤ q ∧ q ≤ 100) ∧
    validate_score "abc" = false ∧ validate_score "" = false ∧
    validate_score "-1" = false ∧ validate_score "100.5" = false ∧
    validate_score "nan" = false ∧ validate_score "inf" = false ∧
    validate_score "-inf" = false ∧ validate_score "0" = true ∧
    validate_score "100" = true ∧ validate_score "55.5" = true := by
  refine ⟨validate_score_iff, by decide, by decide, ?_, ?_, by decide,
    by decide, by decide, ?_, ?_, ?_⟩ <;>
    (simp [validate_score, pyFloat, pyFloatOfChars, digitsVal, pyLe] <;> norm_num)

/-- Claim C9: clear-all returns an empty roster and removes the
persisted file when present; run on a state with no persisted file —
in particular on an already-empty roster — it is a no-op that leaves
the roster empty, and being a total function it raises nothing. -/
theorem c9_clear_all :
    (∀ s : AppState, (clear_all s).roster = [] ∧ (clear_all s).file = none) ∧
    clear_all { roster := [], file := none } = { roster := [], file := none } := by
  refine ⟨fun s => ?_, rfl⟩
  cases h : s.file <;> simp [clear_all, h]

/-- Counterexample to C7: the persisted file exists but is empty, so
parsing fails; the startup load propagates the parse error instead of
recovering with an empty roster. -/
theorem c7_parse_failure_counterexample :
    startup_load (some []) none =
      Except.error "EmptyDataError: No columns to parse from file" ∧
    startup_load (some []) none ≠ Except.ok [] := by
  refine ⟨rfl, ?_⟩
  simp [startup_load, pd_read_csv]

/-- Claim C7 as amended: the startup load yields the empty roster when
no file exists and the session is fresh (and keeps a prior session
roster otherwise), but when the file exists and cannot be parsed the
parse error propagates uncaught — it is not treated as an empty
roster. -/
theorem c7_load_behaviour :
    startup_load none none = Except.ok [] ∧
    (∀ lines prior e, pd_read_csv lines = Except.error e →
      startup_load (some lines) prior = Except.error e) ∧
    (∀ prior, startup_load none (some prior) = Except.ok prior) := by
  refine ⟨rfl, fun lines prior e h => ?_, fun prior => rfl⟩
  simp [startup_load, h]

/-- Witness for C7's amended theorem at the empty (unparseable) file. -/
theorem c7_load_behaviour_witness :
    pd_read_csv [] = Except.error "EmptyDataError: No columns to parse from file" ∧
    startup_load (some []) (some [[("Name", "Alice")]]) =
      Except.error "EmptyDataError: No columns to parse from file" :=
  ⟨rfl, c7_load_behaviour.2.1 [] (some [[("Name", "Alice")]]) _ rfl⟩


/-- Counterexample to C2: submitting scores 79.99, 79.99 and 80.01
stores average 80 (the rounded mean) with grade B (graded from the
unrounded mean 79.996...), while the evaluator maps the stored average
80 to A — so the stored grade differs from Evaluate(average). -/
theorem c2_rounding_crosses_band_counterexample :
    (app_submit [] none "Alice" "79.99" "79.99" "80.01").roster =
      [{ name := "Alice",
         scores := [.num (7999 / 100), .num (7999 / 100), .num (8001 / 100)],
         average := 80, grade := "B" }] ∧
    compute_grade 80 = "A" ∧ ("B" : String) ≠ "A" := by
  refine ⟨?_, by unfold compute_grade; norm_num, by decide⟩
  have h1 : floatVal "79.99" = 7999 / 100 := by
    simp [floatVal, pyFloat, pyFloatOfChars, digitsVal]
    norm_num
  have h2 : floatVal "80.01" = 8001 / 100 := by
    simp [floatVal, pyFloat, pyFloatOfChars, digitsVal]
    norm_num
  have v1 : validate_score "79.99" = true := by
    simp [validate_score, pyFloat, pyFloatOfChars, digitsVal, pyLe]
    norm_num
  have v2 : validate_score "80.01" = true := by
    simp [validate_score, pyFloat, pyFloatOfChars, digitsVal, pyLe]
    norm_num
  have vn : validate_name "Alice" = true := by decide
  simp [app_submit, v1, v2, vn, h1, h2, pyStrip, pyIsSpace]
  constructor
  · unfold round2 roundHalfEven
    norm_num
  · unfold compute_grade
    norm_num

/-- Claim C2 as amended: in both submit handlers the cached grade
equals the evaluator applied to the exact unrounded arithmetic mean of
the parsed scores; it agrees with Evaluate of the cached rounded
average except when rounding to 2 decimals crosses a band boundary. -/
theorem c2_grade_from_unrounded_mean :
    (∀ roster file name m1 m2 m3,
      validate_name name = true → validate_score m1 = true →
      validate_score m2 = true → validate_score m3 = true →
      ∃ r, (app_submit roster file name m1 m2 m3).roster = roster ++ [r] ∧
        r.grade = compute_grade ((floatVal m1 + floatVal m2 + floatVal m3) / 3)) ∧
    (∀ roster file name marks, pyStrip name ≠ "" →
      marks.all (fun m => validate_score m.2) = true →
      ∃ r, (final_submit roster file name marks).roster = roster ++ [r] ∧
        r.grade = compute_grade ((marks.map (fun m => floatVal m.2)).sum /
          ((marks.map (fun m => floatVal m.2)).length : ℚ))) := by
  constructor
  · intro roster file name m1 m2 m3 hn h1 h2 h3
    refine ⟨appRecord name m1 m2 m3, ?_, rfl⟩
    rw [app_submit_valid roster file name m1 m2 m3 hn h1 h2 h3]
  · intro roster file name marks h hv
    refine ⟨finalRecord name marks, ?_, by simp [finalRecord]⟩
    rw [final_submit_name_valid roster file name marks h, if_pos hv]

/-- Witness for C2's amended theorem at the submission Alice 90/85/95. -/
theorem c2_grade_from_unrounded_mean_witness :
    validate_name "Alice" = true ∧ validate_score "90" = true ∧
    validate_score "85" = true ∧ validate_score "95" = true ∧
    ∃ r, (app_submit [] none "Alice" "90" "85" "95").roster = [] ++ [r] ∧
      r.grade = compute_grade ((floatVal "90" + floatVal "85" + floatVal "95") / 3) := by
  have h90 : validate_score "90" = true := by
    simp [validate_score, pyFloat, pyFloatOfChars, digitsVal, pyLe]
    norm_num
  have h85 : validate_score "85" = true := by
    simp [validate_score, pyFloat, pyFloatOfChars, digitsVal, pyLe]
    norm_num
  have h95 : validate_score "95" = true := by
    simp [validate_score, pyFloat, pyFloatOfChars, digitsVal, pyLe]
    norm_num
  exact ⟨by decide, h90, h85, h95,
    c2_grade_from_unrounded_mean.1 [] none "Alice" "90" "85" "95" (by decide) h90 h85 h95⟩

/-- Counterexample to C3: in the final_app handler a submission with an
empty name and three failing score fields reports only the name error;
the failing subjects are never checked, so the full set of per-field
messages is not produced. -/
theorem c3_final_app_short_circuit_counterexample :
    validate_score "abc" = false ∧
    (final_submit [] none ""
      [("Subject 1", "abc"), ("Subject 2", "abc"), ("Subject 3", "abc")]).errors =
      ["Name cannot be empty."] ∧
    "Subject 1 must be between 0 and 100." ∉
      (final_submit [] none ""
        [("Subject 1", "abc"), ("Subject 2", "abc"), ("Subject 3", "abc")]).errors := by
  refine ⟨by decide, by decide, by decide⟩

/-- Claim C3 as amended: the app.py handler checks the name and all
three scores and reports one message per failing field in field order;
the final_app.py handler does so for the score fields only when the
stripped name is non-empty — an empty name short-circuits to the single
name error without checking any score. -/
theorem c3_error_collection :
    (∀ roster file name m1 m2 m3,
      (app_submit roster file name m1 m2 m3).errors =
        (if !validate_name name then ["Name cannot be empty."] else []) ++
        (if !validate_score m1 then ["Subject 1 must be between 0 and 100."] else []) ++
        (if !validate_score m2 then ["Subject 2 must be between 0 and 100."] else []) ++
        (if !validate_score m3 then ["Subject 3 must be between 0 and 100."] else [])) ∧
    (∀ roster file name marks, pyStrip name ≠ "" →
      (final_submit roster file name marks).errors =
        (marks.filter (fun m => !validate_score m.2)).map
          (fun m => m.1 ++ " must be between 0 and 100.")) ∧
    (∀ roster file name marks, pyStrip name = "" →
      (final_submit roster file name marks).errors = ["Name cannot be empty."]) := by
  refine ⟨app_submit_errors_eq, fun roster file name marks h => ?_,
    fun roster file name marks h => ?_⟩
  · rw [final_submit_name_valid roster file name marks h]
    by_cases hv : marks.all (fun m => validate_score m.2) = true
    · have hnil : marks.filter (fun m => !validate_score m.2) = [] := by
        rw [List.filter_eq_nil_iff]
        intro a ha
        simp [(List.all_eq_true.mp hv) a ha]
      simp [hv, hnil]
    · simp [hv]
  · rw [final_submit_name_empty roster file name marks h]

/-- Witness for C3's amended theorem: two failing subjects give two
messages when the name is valid, and an empty name gives only the name
error. -/
theorem c3_error_collection_witness :
    pyStrip "Bob" ≠ "" ∧
    (final_submit [] none "Bob" [("Subject 1", "abc"), ("Subject 2", "abc")]).errors =
      ["Subject 1 must be between 0 and 100.", "Subject 2 must be between 0 and 100."] ∧
    pyStrip " " = "" ∧
    (final_submit [] none " " [("Subject 1", "abc")]).errors = ["Name cannot be empty."] := by
  refine ⟨by decide, ?_, by decide,
    c3_error_collection.2.2 [] none " " [("Subject 1", "abc")] (by decide)⟩
  rw [c3_error_collection.2.1 [] none "Bob"
    [("Subject 1", "abc"), ("Subject 2", "abc")] (by decide)]
  decide

/-- Claim C5: for any submission of three valid scores (each parsing
into [0, 100]), the average stored on the appended record equals the
exact arithmetic mean of the parsed scores rounded to 2 decimal
places. -/
theorem c5_average_rounded_mean (roster : List StudentRecord)
    (file : Option (List StudentRecord)) (name m1 m2 m3 : String)
    (hn : validate_name name = true) (h1 : validate_score m1 = true)
    (h2 : validate_score m2 = true) (h3 : validate_score m3 = true) :
    ∃ r, (app_submit roster file name m1 m2 m3).roster = roster ++ [r] ∧
      0 ≤ floatVal m1 ∧ floatVal m1 ≤ 100 ∧ 0 ≤ floatVal m2 ∧ floatVal m2 ≤ 100 ∧
      0 ≤ floatVal m3 ∧ floatVal m3 ≤ 100 ∧
      r.average = round2 ((floatVal m1 + floatVal m2 + floatVal m3) / 3) := by
  obtain ⟨b1, b1u⟩ := floatVal_bounds m1 h1
  obtain ⟨b2, b2u⟩ := floatVal_bounds m2 h2
  obtain ⟨b3, b3u⟩ := floatVal_bounds m3 h3
  refine ⟨appRecord name m1 m2 m3, ?_, b1, b1u, b2, b2u, b3, b3u, rfl⟩
  rw [app_submit_valid roster file name m1 m2 m3 hn h1 h2 h3]

/-- Witness for C5 at the submission Bob 70/65/68. -/
theorem c5_average_rounded_mean_witness :
    validate_name "Bob" = true ∧ validate_score "70" = true ∧
    validate_score "65" = true ∧ validate_score "68" = true ∧
    ∃ r, (app_submit [] none "Bob" "70" "65" "68").roster = [] ++ [r] ∧
      0 ≤ floatVal "70" ∧ floatVal "70" ≤ 100 ∧ 0 ≤ floatVal "65" ∧ floatVal "65" ≤ 100 ∧
      0 ≤ floatVal "68" ∧ floatVal "68" ≤ 100 ∧
      r.average = round2 ((floatVal "70" + floatVal "65" + floatVal "68") / 3) := by
  have h70 : validate_score "70" = true := by
    simp [validate_score, pyFloat, pyFloatOfChars, digitsVal, pyLe]
    norm_num
  have h65 : validate_score "65" = true := by
    simp [validate_score, pyFloat, pyFloatOfChars, digitsVal, pyLe]
    norm_num
  have h68 : validate_score "68" = true := by
    simp [validate_score, pyFloat, pyFloatOfChars, digitsVal, pyLe]
    norm_num
  exact ⟨by decide, h70, h65, h68,
    c5_average_rounded_mean [] none "Bob" "70" "65" "68" (by decide) h70 h65 h68⟩

/-- Claim C6: whenever a submit handler reports any validation error,
the roster is unchanged — no record, partial or otherwise, is appended
— and the persisted file is not rewritten; this holds for both the
app.py and the final_app.py handler. -/
theorem c6_roster_unchanged_on_error :
    (∀ roster file name m1 m2 m3,
      (app_submit roster file name m1 m2 m3).errors ≠ [] →
      (app_submit roster file name m1 m2 m3).roster = roster ∧
      (app_submit roster file name m1 m2 m3).file = file) ∧
    (∀ roster file name marks,
      (final_submit roster file name marks).errors ≠ [] →
      (final_submit roster file name marks).roster = roster ∧
      (final_submit roster file name marks).file = file) := by
  refine ⟨app_submit_invalid, fun roster file name marks h => ?_⟩
  by_cases hs : pyStrip name = ""
  · rw [final_submit_name_empty roster file name marks hs]
    exact ⟨rfl, rfl⟩
  · rw [final_submit_name_valid roster file name marks hs] at h ⊢
    by_cases hv : marks.all (fun m => validate_score m.2) = true
    · rw [if_pos hv] at h
      simp at h
    · rw [if_neg hv]
      exact ⟨rfl, rfl⟩

/-- Witness for C6 at submissions with the unparseable score text
abc. -/
theorem c6_roster_unchanged_on_error_witness :
    (app_submit [] none "Alice" "abc" "abc" "abc").errors ≠ [] ∧
    (app_submit [] none "Alice" "abc" "abc" "abc").roster = [] ∧
    (app_submit [] none "Alice" "abc" "abc" "abc").file = none ∧
    (final_submit [] none "Alice" [("Subject 1", "abc")]).errors ≠ [] ∧
    (final_submit [] none "Alice" [("Subject 1", "abc")]).roster = [] ∧
    (final_submit [] none "Alice" [("Subject 1", "abc")]).file = none := by
  have h1 := c6_roster_unchanged_on_error.1 [] none "Alice" "abc" "abc" "abc" (by decide)
  have h2 := c6_roster_unchanged_on_error.2 [] none "Alice" [("Subject 1", "abc")] (by decide)
  exact ⟨by decide, h1.1, h1.2, by decide, h2.1, h2.2⟩

/-- Counterexample to C8: the record stored by the final_app handler
keeps the raw submitted strings in its subject cells — the cell for
Subject 1 is the string cell of the text 50, which is not a numeric
cell for any rational. -/
theorem c8_raw_string_scores_counterexample :
    (final_submit [] none "Alice"
        [("Subject 1", "50"), ("Subject 2", "60"), ("Subject 3", "70")]).roster =
      [{ name := "Alice",
         scores := [Value.str "50", Value.str "60", Value.str "70"],
         average := 60, grade := "C" }] ∧
    (∀ q : ℚ, Value.str "50" ≠ Value.num q) := by
  refine ⟨?_, fun q => by simp⟩
  have v50 : validate_score "50" = true := by
    simp [validate_score, pyFloat, pyFloatOfChars, digitsVal, pyLe]
    norm_num
  have v60 : validate_score "60" = true := by
    simp [validate_score, pyFloat, pyFloatOfChars, digitsVal, pyLe]
    norm_num
  have v70 : validate_score "70" = true := by
    simp [validate_score, pyFloat, pyFloatOfChars, digitsVal, pyLe]
    norm_num
  have f50 : floatVal "50" = 50 := by
    simp [floatVal, pyFloat, pyFloatOfChars, digitsVal]
  have f60 : floatVal "60" = 60 := by
    simp [floatVal, pyFloat, pyFloatOfChars, digitsVal]
  have f70 : floatVal "70" = 70 := by
    simp [floatVal, pyFloat, pyFloatOfChars, digitsVal]
  rw [final_submit_name_valid [] none "Alice"
    [("Subject 1", "50"), ("Subject 2", "60"), ("Subject 3", "70")] (by decide),
    if_pos (by simp [v50, v60, v70])]
  simp [finalRecord, f50, f60, f70, pyStrip, pyIsSpace]
  constructor
  · unfold round2 roundHalfEven
    norm_num
  · unfold compute_grade
    norm_num

/-- Claim C8 as amended: records stored by the app.py handler carry
numeric score cells, one per subject in subject order, each in
[0, 100]; records stored by the final_app.py handler instead carry the
raw submitted text of each subject, in subject order. -/
theorem c8_stored_scores :
    (∀ roster file name m1 m2 m3,
      validate_name name = true → validate_score m1 = true →
      validate_score m2 = true → validate_score m3 = true →
      ∃ r, (app_submit roster file name m1 m2 m3).roster = roster ++ [r] ∧
        r.scores = [Value.num (floatVal m1), Value.num (floatVal m2), Value.num (floatVal m3)] ∧
        ∀ v ∈ r.scores, ∃ q : ℚ, v = Value.num q ∧ 0 ≤ q ∧ q ≤ 100) ∧
    (∀ roster file name marks, pyStrip name ≠ "" →
      marks.all (fun m => validate_score m.2) = true →
      ∃ r, (final_submit roster file name marks).roster = roster ++ [r] ∧
        r.scores = marks.map (fun m => Value.str m.2)) := by
  constructor
  · intro roster file name m1 m2 m3 hn h1 h2 h3
    refine ⟨appRecord name m1 m2 m3, ?_, rfl, ?_⟩
    · rw [app_submit_valid roster file name m1 m2 m3 hn h1 h2 h3]
    · intro v hv
      simp only [appRecord, List.mem_cons, List.not_mem_nil, or_false] at hv
      rcases hv with h | h | h <;> subst h
      · exact ⟨floatVal m1, rfl, floatVal_bounds m1 h1⟩
      · exact ⟨floatVal m2, rfl, floatVal_bounds m2 h2⟩
      · exact ⟨floatVal m3, rfl, floatVal_bounds m3 h3⟩
  · intro roster file name marks h hv
    refine ⟨finalRecord name marks, ?_, rfl⟩
    rw [final_submit_name_valid roster file name marks h, if_pos hv]

/-- Witness for C8's amended theorem at concrete valid submissions for
both handlers. -/
theorem c8_stored_scores_witness :
    validate_name "Alice" = true ∧ validate_score "90" = true ∧
    validate_score "85" = true ∧ validate_score "95" = true ∧
    (∃ r, (app_submit [] none "Alice" "90" "85" "95").roster = [] ++ [r] ∧
      r.scores = [Value.num (floatVal "90"), Value.num (floatVal "85"),
        Value.num (floatVal "95")] ∧
      ∀ v ∈ r.scores, ∃ q : ℚ, v = Value.num q ∧ 0 ≤ q ∧ q ≤ 100) ∧
    pyStrip "Bob" ≠ "" ∧
    [("Subject 1", "90")].all (fun m => validate_score m.2) = true ∧
    ∃ r, (final_submit [] none "Bob" [("Subject 1", "90")]).roster = [] ++ [r] ∧
      r.scores = [("Subject 1", "90")].map (fun m => Value.str m.2) := by
  have h90 : validate_score "90" = true := by
    simp [validate_score, pyFloat, pyFloatOfChars, digitsVal, pyLe]
    norm_num
  have h85 : validate_score "85" = true := by
    simp [validate_score, pyFloat, pyFloatOfChars, digitsVal, pyLe]
    norm_num
  have h95 : validate_score "95" = true := by
    simp [validate_score, pyFloat, pyFloatOfChars, digitsVal, pyLe]
    norm_num
  have hall : [("Subject 1", "90")].all (fun m => validate_score m.2) = true := by
    simp [h90]
  exact ⟨by decide, h90, h85, h95,
    c8_stored_scores.1 [] none "Alice" "90" "85" "95" (by decide) h90 h85 h95,
    by decide, hall,
    c8_stored_scores.2 [] none "Bob" [("Subject 1", "90")] (by decide) hall⟩

end Grading
